import Mathlib

/-
Verification development for the TraeCheck GitHub Action.

The repository contains two variants of each of its two processes:
  * the AI (hardened) Analyzer  — src/mcp-server.ts
  * the heuristic Analyzer      — the variant server (unnamed source)
  * the plain Invoker           — src/action.ts
  * the AI-variant Invoker      — the variant entry (unnamed source)

JavaScript strings are embedded as `List Char`; JavaScript `undefined`
as `Option.none`; a promise that may reject as `Except Str`.  Every
definition mirrors the corresponding source line by line.
-/

namespace TraeCheck

/-- JavaScript strings are modelled as lists of characters. -/
abbrev Str := List Char

/-- Coerce a Lean string literal into the `List Char` model. -/
def strL (s : String) : Str := s.toList

/-- JavaScript `String.prototype.toLowerCase`, per character. -/
def toLower (s : Str) : Str := s.map Char.toLower

/-- Does `pat` occur at the start of `s`?  (helper for `containsStr`). -/
def startsWith : Str → Str → Bool
  | [], _ => true
  | _ :: _, [] => false
  | a :: as, b :: bs => a == b && startsWith as bs

/-- JavaScript `hay.includes(pat)`: substring containment. -/
def containsStr : Str → Str → Bool
  | [], pat => pat.isEmpty
  | c :: rest, pat => startsWith pat (c :: rest) || containsStr rest pat

/-- Decimal rendering of a natural number, JavaScript template-literal style. -/
def natToStr (n : Nat) : Str := (Nat.repr n).toList

/-- A changed-file record from the hosting platform's file-list read
(`octokit.pulls.listFiles`).  `patch` is absent for binary or huge files. -/
structure ChangedFile where
  filename : Str
  status : Str
  additions : Nat
  deletions : Nat
  changes : Nat
  patch : Option Str
deriving DecidableEq, Repr

/-- One per-file review comment in the tool's output shape. -/
structure ReviewComment where
  path : Str
  body : Str
  position : Option Nat := none
deriving DecidableEq, Repr

/-- The structured content returned by the analyze_pr tool:
the sole contract between Analyzer and Invoker. -/
structure AnalysisResult where
  summary : Str
  comments : List ReviewComment
deriving DecidableEq, Repr

/- ===== Heuristic Analyzer (variant server) ===== -/

/-- Comment body for the large-diff heuristic rule. -/
def largeDiffMsg : Str :=
  strL "Large diff detected. Consider breaking changes into smaller commits for easier review."

/-- Comment body for the configuration-file heuristic rule. -/
def configMsg : Str :=
  strL "Configuration file modified. Ensure environment-specific values are documented and secrets are not committed."

/-- Comment body for the test-deletion heuristic rule. -/
def testDeletedMsg : Str :=
  strL "Test file deleted. Ensure functionality is still covered by remaining tests."

/-- Comment body for the security-sensitive-file heuristic rule. -/
def securityMsg : Str :=
  strL "Security-sensitive file modified. Please ensure proper security review is conducted."

/-- The heuristic rule block applied to a single changed file, in push
order: large diff, configuration file, test deletion, security-sensitive.
A file may match several rules; each match pushes one comment. -/
def fileComments (f : ChangedFile) : List ReviewComment :=
  (if 2000 < (f.patch.getD []).length then
      [{ path := f.filename, body := largeDiffMsg }] else [])
  ++ (if f.status == strL "modified" && containsStr (toLower f.filename) (strL "config") then
      [{ path := f.filename, body := configMsg }] else [])
  ++ (if containsStr (toLower f.filename) (strL "test") && f.status == strL "removed" then
      [{ path := f.filename, body := testDeletedMsg }] else [])
  ++ (if containsStr (toLower f.filename) (strL "auth")
        || containsStr (toLower f.filename) (strL "secret") then
      [{ path := f.filename, body := securityMsg }] else [])

/-- The heuristic summary template:
`Automated PR analysis found N suggestion(s) for owner/repo#prNumber.` -/
def summaryFor (owner repo : Str) (prNumber : Nat) (count : Nat) : Str :=
  strL "Automated PR analysis found " ++ natToStr count
    ++ strL " suggestion(s) for " ++ owner ++ strL "/" ++ repo
    ++ strL "#" ++ natToStr prNumber ++ strL "."

/-- The heuristic variant's analyze_pr handler.  Its only hosting-platform
read is the file-list read, whose outcome is the `filesRead` argument; the
handler body has no try/catch, so a rejection of that read propagates out
of the handler (modelled by returning the same `Except.error`). -/
def analyze_pr_heuristic (owner repo : Str) (prNumber : Nat)
    (filesRead : Except Str (List ChangedFile)) : Except Str AnalysisResult :=
  match filesRead with
  | .error e => .error e
  | .ok files =>
      let comments := files.flatMap fileComments
      .ok { summary := summaryFor owner repo prNumber comments.length
            comments := comments }

/- ===== AI (hardened) Analyzer — src/mcp-server.ts ===== -/

/-- PR metadata obtained from the get-PR-by-number read (`octokit.pulls.get`).
`userLogin` models `pr.user?.login` (undefined when there is no user);
`body` models the optional PR description. -/
structure PRInfo where
  title : Str
  userLogin : Option Str
  state : Str
  baseRef : Str
  headRef : Str
  body : Option Str
deriving DecidableEq, Repr

/-- Truncation of a single patch, mcp-server.ts lines 74-76:
`file.patch.length > 5000 ? file.patch.substring(0, 5000) + "\n... (truncated)" : file.patch`. -/
def truncatePatch (p : Str) : Str :=
  if 5000 < p.length then p.take 5000 ++ strL "\n... (truncated)" else p

/-- The fixed-format header of one changed-file section of the context,
mcp-server.ts lines 67-70. -/
def sectionHeader (f : ChangedFile) : Str :=
  strL "### " ++ f.filename ++ strL " (" ++ f.status ++ strL ")\n"
    ++ strL "- **Additions**: +" ++ natToStr f.additions ++ strL "\n"
    ++ strL "- **Deletions**: -" ++ natToStr f.deletions ++ strL "\n"
    ++ strL "- **Changes**: " ++ natToStr f.changes ++ strL " lines\n"

/-- One changed-file section of the context, mcp-server.ts lines 66-80:
the header, then — only when `file.patch` is truthy (present and
non-empty) — a fenced diff block holding the possibly truncated patch,
then a blank line. -/
def fileSection (f : ChangedFile) : Str :=
  sectionHeader f
    ++ (match f.patch with
        | some p =>
            if p.isEmpty then []
            else strL "\n```diff\n" ++ truncatePatch p ++ strL "\n```\n"
        | none => [])
    ++ strL "\n"

/-- The full PR context blob, mcp-server.ts lines 51-80.  A missing
`pr.user?.login` renders as the string `undefined`, as a JavaScript
template literal does. -/
def buildPRContext (prNumber : Nat) (pr : PRInfo) (files : List ChangedFile) : Str :=
  strL "# Pull Request Analysis Request\n\n"
    ++ strL "## PR Information\n"
    ++ strL "- **Title**: " ++ pr.title ++ strL "\n"
    ++ strL "- **Number**: #" ++ natToStr prNumber ++ strL "\n"
    ++ strL "- **Author**: " ++ (pr.userLogin.getD (strL "undefined")) ++ strL "\n"
    ++ strL "- **State**: " ++ pr.state ++ strL "\n"
    ++ strL "- **Base Branch**: " ++ pr.baseRef ++ strL " ← **Head Branch**: " ++ pr.headRef ++ strL "\n\n"
    ++ (match pr.body with
        | some b => if b.isEmpty then [] else strL "## PR Description\n" ++ b ++ strL "\n\n"
        | none => [])
    ++ strL "## Files Changed (" ++ natToStr files.length ++ strL " files)\n\n"
    ++ files.flatMap fileSection

/-- The fixed instructional prompt wrapped around the context,
mcp-server.ts lines 93-107. -/
def promptFor (ctx : Str) : Str :=
  strL "You are an expert code reviewer. Analyze the following Pull Request and provide a comprehensive review.\n\n"
    ++ ctx
    ++ strL "\n\nPlease provide:\n1. **Overall Assessment**: A summary of what this PR does and its impact\n2. **Code Quality**: Review code style, best practices, potential bugs, and improvements\n3. **Security**: Identify any security concerns or vulnerabilities\n4. **Performance**: Note any performance implications\n5. **Testing**: Assess test coverage and suggest improvements\n6. **Documentation**: Check if changes are properly documented\n7. **Specific Issues**: List specific issues found in the code with file paths and line numbers if possible\n8. **Suggestions**: Provide actionable suggestions for improvement\n\nFormat your response as a comprehensive markdown document that will be posted as a PR comment. Be thorough, constructive, and professional."

/-- JavaScript truthiness of an optional string: `undefined` and the
empty string are falsy. -/
def jsTruthy : Option Str → Bool
  | none => false
  | some s => !s.isEmpty

/-- JavaScript `a || b` on optional strings: `b` when `a` is falsy. -/
def jsOr (a b : Option Str) : Option Str := if jsTruthy a then a else b

/-- Model of `Promise.all` over the two independent hosting-platform reads of the
AI Analyzer (mcp-server.ts lines 43-46): both outcomes when both resolve,
otherwise a rejection. -/
def promiseAll2 {α β : Type} (a : Except Str α) (b : Except Str β) :
    Except Str (α × β) :=
  match a, b with
  | .ok x, .ok y => .ok (x, y)
  | .error e, _ => .error e
  | _, .error e => .error e

/-- Is an `Except` a success? -/
def isOkE {ε α : Type} : Except ε α → Bool
  | .ok _ => true
  | .error _ => false

/-- The body of the AI handler's `try` block, mcp-server.ts lines 38-142,
as a function of the outcomes of its effectful steps: `reads` is the
jointly awaited pair of hosting-platform reads, `gemini` maps the prompt
to the model response (or a rejection), and `extract` is the regex-based
per-file comment extraction of line 119, kept abstract because no claim
under verification constrains it.  An `Except.error` models a thrown
exception reaching the `catch`. -/
def analyze_pr_try (prNumber : Nat) (argKey envKey : Option Str)
    (reads : Except Str (PRInfo × List ChangedFile))
    (gemini : Str → Except Str Str)
    (extract : Str → List ReviewComment) : Except Str AnalysisResult := do
  let (pr, files) ← reads
  let prContext := buildPRContext prNumber pr files
  let apiKey := jsOr argKey envKey
  if !jsTruthy apiKey then
    throw (strL "Gemini API key is required. Set GEMINI_API_KEY environment variable or pass geminiApiKey parameter.")
  else
    let aiAnalysis ← gemini (promptFor prContext)
    let comments := extract aiAnalysis
    pure { summary := aiAnalysis
           comments := if 0 < comments.length then comments else [] }

/-- The AI-variant analyze_pr handler: the try body over the
`Promise.all` of the two reads, with the catch block of lines 143-154
converting any thrown error into a degraded result whose summary is the
error description and whose comment list is empty. -/
def analyze_pr_ai (prNumber : Nat) (argKey envKey : Option Str)
    (getPR : Except Str PRInfo) (listFilesRead : Except Str (List ChangedFile))
    (gemini : Str → Except Str Str)
    (extract : Str → List ReviewComment) : AnalysisResult :=
  match analyze_pr_try prNumber argKey envKey (promiseAll2 getPR listFilesRead) gemini extract with
  | .ok r => r
  | .error e => { summary := strL "Error during PR analysis: " ++ e, comments := [] }

/-- A sample PR metadata record used to instantiate concrete runs. -/
def samplePR : PRInfo :=
  { title := strL "Add retry logic", userLogin := some (strL "octocat")
    state := strL "open", baseRef := strL "main", headRef := strL "feature"
    body := none }

/- ===== Invoker — src/action.ts and the AI-variant entry ===== -/

/-- JavaScript `s.split(sep)` for a one-character separator: the list of
(possibly empty) segments; splitting any string yields at least one
segment, so `[0]` is always defined while `[1]` may be `undefined`. -/
def jsSplit (sep : Char) : Str → List Str
  | [] => [[]]
  | c :: rest =>
      if c = sep then [] :: jsSplit sep rest
      else
        match jsSplit sep rest with
        | [] => [[c]]
        | seg :: segs => (c :: seg) :: segs

/-- Numeric value of a list of decimal digit characters. -/
def digitsToNat (ds : Str) : Nat :=
  ds.foldl (fun a c => 10 * a + (c.toNat - 48)) 0

/-- Numeric value of a list of digit characters in base `b`
(hexadecimal digits may be letters). -/
def digitsToNatBase (b : Nat) (ds : Str) : Nat :=
  ds.foldl (fun a c =>
    b * a + (if c.isDigit then c.toNat - 48
             else if 'a' ≤ c && c ≤ 'z' then c.toNat - 87
             else c.toNat - 55)) 0

/-- Is `c` a hexadecimal digit? -/
def isHexDigit (c : Char) : Bool :=
  c.isDigit || ('a' ≤ c && c ≤ 'f') || ('A' ≤ c && c ≤ 'F')

/-- JavaScript whitespace stripped by `Number()`. -/
def isJsWs (c : Char) : Bool :=
  c == ' ' || c == '\t' || c == '\n' || c == '\r'

/-- Strip leading and trailing JavaScript whitespace. -/
def trimWs (s : Str) : Str :=
  ((s.dropWhile isJsWs).reverse.dropWhile isJsWs).reverse

/-- The exact decimal value produced by `Number()` on a numeric string:
sign, concatenated mantissa digits, and a power-of-ten exponent, denoting
`±mantissa · 10 ^ exp10`. -/
structure JsNum where
  neg : Bool
  mantissa : Nat
  exp10 : Int
deriving DecidableEq, Repr

/-- Is the value non-positive (`prNumber <= 0` in the source)?  A zero
mantissa denotes 0 (or -0), which compares `<= 0`. -/
def jsNumNonPos (v : JsNum) : Bool := v.neg || v.mantissa == 0

/-- Model of `Number.isInteger` on the exact decimal value: the value is an
integer when the exponent is non-negative or the mantissa absorbs the
negative exponent. -/
def jsNumIsInt (v : JsNum) : Bool :=
  decide (0 ≤ v.exp10) || v.mantissa % 10 ^ (-v.exp10).toNat == 0

/-- The natural number a validated (positive integral) value denotes. -/
def jsNumToNat (v : JsNum) : Nat :=
  if 0 ≤ v.exp10 then v.mantissa * 10 ^ v.exp10.toNat
  else v.mantissa / 10 ^ (-v.exp10).toNat

/-- Model of the JavaScript `Number()` conversion on strings: trim
whitespace, the empty string converts to 0, then either a radix-prefixed
integer literal (`0x`, `0o`, `0b`, sign not allowed) or an optionally
signed decimal literal with optional fraction and exponent; anything
else is NaN (`none`).  The exact decimal value is kept — float64
rounding is not modelled, and the non-finite literal `Infinity`
(which the PR-number validation also rejects, via its integrality check
rather than `isNaN`) maps to `none`. -/
def jsToNumber (s : Str) : Option JsNum :=
  let t := trimWs s
  if t.isEmpty then some ⟨false, 0, 0⟩
  else
    match t with
    | '0' :: r :: ds =>
        if r == 'x' || r == 'X' then
          if !ds.isEmpty && ds.all isHexDigit then
            some ⟨false, digitsToNatBase 16 ds, 0⟩
          else none
        else if r == 'o' || r == 'O' then
          if !ds.isEmpty && ds.all (fun c => '0' ≤ c && c ≤ '7') then
            some ⟨false, digitsToNatBase 8 ds, 0⟩
          else none
        else if r == 'b' || r == 'B' then
          if !ds.isEmpty && ds.all (fun c => c == '0' || c == '1') then
            some ⟨false, digitsToNatBase 2 ds, 0⟩
          else none
        else jsDecimal t
    | _ => jsDecimal t
where
  /-- An optionally signed decimal literal `[+-]? d* (. d*)? ([eE][+-]? d+)?`
  needing at least one mantissa digit, consuming the whole string. -/
  jsDecimal (t : Str) : Option JsNum :=
    let (sign, t1) :=
      match t with
      | '-' :: rest => (true, rest)
      | '+' :: rest => (false, rest)
      | _ => (false, t)
    let (ip, t2) := t1.span Char.isDigit
    let (fp, t3) :=
      match t2 with
      | '.' :: rest => rest.span Char.isDigit
      | _ => ([], t2)
    match t3 with
    | [] =>
        if ip.isEmpty && fp.isEmpty then none
        else some ⟨sign, digitsToNat (ip ++ fp), -(fp.length : Int)⟩
    | e :: rest =>
        if e == 'e' || e == 'E' then
          let (esign, r2) :=
            match rest with
            | '-' :: r => (true, r)
            | '+' :: r => (false, r)
            | _ => (false, rest)
          let (eds, r3) := r2.span Char.isDigit
          if ip.isEmpty && fp.isEmpty then none
          else if eds.isEmpty || !r3.isEmpty then none
          else
            some ⟨sign, digitsToNat (ip ++ fp),
                  (if esign then -(digitsToNat eds : Int) else (digitsToNat eds : Int))
                    - (fp.length : Int)⟩
        else none

/-- The process environment consumed by the Invoker. -/
structure Env where
  GITHUB_TOKEN : Option Str
  GH_TOKEN : Option Str
  GITHUB_REPOSITORY : Option Str
  PR_NUMBER : Option Str
  PR_NUMBER_INPUT : Option Str
  GEMINI_API_KEY : Option Str
deriving Repr

/-- The arguments of the one analyze_pr tool call an Invoker issues. -/
structure ToolArgs where
  owner : Str
  repo : Str
  prNumber : Nat
  githubToken : Str
  geminiApiKey : Option Str := none
deriving DecidableEq, Repr

/-- Outcomes of the Invoker's effectful steps: transport start/connect,
the tool call (whose reply may lack `structuredContent`, modelled by an
inner `Option`), and the two hosting-platform writes. -/
structure InvokerFx where
  connect : Except Str Unit
  toolReply : Except Str (Option AnalysisResult)
  postComment : Except Str Unit
  postReview : Except Str Unit

/-- Observable outcome of one Invoker run: the process exit code, the
tool call issued (if any), whether the final `PR analysis completed.`
log was reached, and the messages logged by the posting catch blocks. -/
structure RunResult where
  exitCode : Nat
  toolCall : Option ToolArgs
  completed : Bool
  postLogs : List Str
deriving Repr

/-- A fatal setup outcome: the outer catch logs and exits 1 before any
tool call. -/
def fatalRun : RunResult :=
  { exitCode := 1, toolCall := none, completed := false, postLogs := [] }

/-- The plain Invoker, src/action.ts `run()`: environment validation,
transport setup, one tool call, then the two posting steps whose
failures are only logged (lines 71-95); every `throw` lands in the outer
catch, which exits 1. -/
def run_action (env : Env) (fx : InvokerFx) : RunResult :=
  let token? := jsOr env.GITHUB_TOKEN env.GH_TOKEN
  if !jsTruthy token? then fatalRun
  else
    let owner? := env.GITHUB_REPOSITORY.bind (fun s => (jsSplit '/' s).get? 0)
    let repo? := env.GITHUB_REPOSITORY.bind (fun s => (jsSplit '/' s).get? 1)
    let prEnv? := jsOr env.PR_NUMBER env.PR_NUMBER_INPUT
    if !(jsTruthy owner? && jsTruthy repo? && jsTruthy prEnv?) then fatalRun
    else
      match jsToNumber (prEnv?.getD []) with
      | none => fatalRun
      | some v =>
          if jsNumNonPos v || !jsNumIsInt v then fatalRun
          else
            match fx.connect with
            | .error _ => fatalRun
            | .ok _ =>
                let args : ToolArgs :=
                  { owner := owner?.getD [], repo := repo?.getD []
                    prNumber := jsNumToNat v, githubToken := token?.getD [] }
                match fx.toolReply with
                | .error _ => { fatalRun with toolCall := some args }
                | .ok none => { fatalRun with toolCall := some args }
                | .ok (some sc) =>
                    let log1 :=
                      match fx.postComment with
                      | .error e => [strL "Failed to post summary comment: " ++ e]
                      | .ok _ => []
                    let log2 :=
                      if 0 < sc.comments.length then
                        match fx.postReview with
                        | .error e => [strL "Failed to post review: " ++ e]
                        | .ok _ => []
                      else []
                    { exitCode := 0, toolCall := some args
                      completed := true, postLogs := log1 ++ log2 }

/-- The AI-variant Invoker entry: same environment validation, then the
GEMINI_API_KEY requirement after connecting, one tool call carrying the
key, a single summary-comment post whose failure is logged AND rethrown
(`throw error`), which the outer catch turns into exit 1; no review
posting. -/
def run_action_ai (env : Env) (fx : InvokerFx) : RunResult :=
  let token? := jsOr env.GITHUB_TOKEN env.GH_TOKEN
  if !jsTruthy token? then fatalRun
  else
    let owner? := env.GITHUB_REPOSITORY.bind (fun s => (jsSplit '/' s).get? 0)
    let repo? := env.GITHUB_REPOSITORY.bind (fun s => (jsSplit '/' s).get? 1)
    let prEnv? := jsOr env.PR_NUMBER env.PR_NUMBER_INPUT
    if !(jsTruthy owner? && jsTruthy repo? && jsTruthy prEnv?) then fatalRun
    else
      match jsToNumber (prEnv?.getD []) with
      | none => fatalRun
      | some v =>
          if jsNumNonPos v || !jsNumIsInt v then fatalRun
          else
            match fx.connect with
            | .error _ => fatalRun
            | .ok _ =>
                if !jsTruthy env.GEMINI_API_KEY then fatalRun
                else
                  let args : ToolArgs :=
                    { owner := owner?.getD [], repo := repo?.getD []
                      prNumber := jsNumToNat v, githubToken := token?.getD []
                      geminiApiKey := env.GEMINI_API_KEY }
                  match fx.toolReply with
                  | .error _ => { fatalRun with toolCall := some args }
                  | .ok none => { fatalRun with toolCall := some args }
                  | .ok (some _) =>
                      match fx.postComment with
                      | .error e =>
                          { exitCode := 1, toolCall := some args
                            completed := false
                            postLogs := [strL "Failed to post AI analysis comment: " ++ e] }
                      | .ok _ =>
                          { exitCode := 0, toolCall := some args
                            completed := true, postLogs := [] }

/- ===== Theorems ===== -/

/-- C1: for every changed file whose patch text is longer than 5000
characters, the context builder's emitted section contains exactly the
first 5000 characters of the patch followed by the literal truncation
marker "... (truncated)" (preceded by the newline the source inserts),
and no further characters of the original patch; patches of 5000
characters or fewer are inserted unmodified (an empty patch is falsy in
the source, so its section carries no diff block at all). -/
theorem C1_patch_truncation (f : ChangedFile) (p : Str) (hp : f.patch = some p) :
    (5000 < p.length →
      fileSection f
        = sectionHeader f ++ strL "\n```diff\n"
            ++ (p.take 5000 ++ strL "\n... (truncated)") ++ strL "\n```\n" ++ strL "\n"
        ∧ (p.take 5000).length = 5000)
    ∧ (p.length ≤ 5000 → p ≠ [] →
      fileSection f
        = sectionHeader f ++ strL "\n```diff\n" ++ p ++ strL "\n```\n" ++ strL "\n")
    ∧ (p = [] → fileSection f = sectionHeader f ++ strL "\n") := by
  refine ⟨fun h => ?_, fun h hne => ?_, fun h => ?_⟩
  · have hne : p ≠ [] := by
      intro hnil
      rw [hnil] at h
      simp at h
    have hemp : p.isEmpty = false := by
      simp [List.isEmpty_iff, hne]
    constructor
    · simp [fileSection, hp, hemp, truncatePatch, if_pos h, List.append_assoc]
    · simp [List.length_take]
      omega
  · have hemp : p.isEmpty = false := by
      simp [List.isEmpty_iff, hne]
    have hnot : ¬ 5000 < p.length := by omega
    simp [fileSection, hp, hemp, truncatePatch, if_neg hnot, List.append_assoc]
  · simp [fileSection, hp, h]

/-- C1 witness: a patch of 5001 characters is cut to its first 5000
characters plus the truncation marker. -/
theorem C1_patch_truncation_witness :
    fileSection
        { filename := strL "big.txt", status := strL "modified"
          additions := 1, deletions := 1, changes := 2
          patch := some (List.replicate 5001 'x') }
      = sectionHeader
          { filename := strL "big.txt", status := strL "modified"
            additions := 1, deletions := 1, changes := 2
            patch := some (List.replicate 5001 'x') }
          ++ strL "\n```diff\n"
          ++ ((List.replicate 5001 'x').take 5000 ++ strL "\n... (truncated)")
          ++ strL "\n```\n" ++ strL "\n"
      ∧ ((List.replicate 5001 'x').take 5000).length = 5000 :=
  (C1_patch_truncation _ (List.replicate 5001 'x') rfl).1
    (by rw [List.length_replicate]; omega)

/-- C3: given owner acme, repo widgets, PR number 7 and one changed file
src/config/db.yaml with status modified and a patch shorter than 2000
characters, the heuristic analyzer returns exactly the configuration-file
comment for that path and the summary
"Automated PR analysis found 1 suggestion(s) for acme/widgets#7.". -/
theorem C3_config_end_to_end (a d c : Nat) (p : Str) (hlen : p.length < 2000) :
    analyze_pr_heuristic (strL "acme") (strL "widgets") 7
        (.ok [{ filename := strL "src/config/db.yaml", status := strL "modified"
                additions := a, deletions := d, changes := c, patch := some p }])
      = .ok { summary := strL "Automated PR analysis found 1 suggestion(s) for acme/widgets#7."
              comments := [{ path := strL "src/config/db.yaml", body := configMsg }] } := by
  have hfc : fileComments
      { filename := strL "src/config/db.yaml", status := strL "modified"
        additions := a, deletions := d, changes := c, patch := some p }
      = [{ path := strL "src/config/db.yaml", body := configMsg }] := by
    unfold fileComments
    simp only [Option.getD_some]
    rw [if_neg (show ¬ 2000 < p.length by omega)]
    decide
  simp only [analyze_pr_heuristic, List.flatMap_cons, List.flatMap_nil, List.append_nil, hfc]
  rfl

/-- C3 witness: the end-to-end instance with a 1500-character patch. -/
theorem C3_config_end_to_end_witness :
    analyze_pr_heuristic (strL "acme") (strL "widgets") 7
        (.ok [{ filename := strL "src/config/db.yaml", status := strL "modified"
                additions := 3, deletions := 1, changes := 4
                patch := some (List.replicate 1500 'x') }])
      = .ok { summary := strL "Automated PR analysis found 1 suggestion(s) for acme/widgets#7."
              comments := [{ path := strL "src/config/db.yaml", body := configMsg }] } :=
  C3_config_end_to_end 3 1 4 (List.replicate 1500 'x')
    (by rw [List.length_replicate]; omega)

/-- C7: for every changed file whose status is removed and whose path
contains "test" case-insensitively, the heuristic analyzer emits exactly
one comment for that path carrying the test-deletion message, whatever
other rules also fire; the analyzer's output is the per-file rule blocks
flattened in order. -/
theorem C7_test_deletion (f : ChangedFile)
    (hst : f.status = strL "removed")
    (ht : containsStr (toLower f.filename) (strL "test") = true) :
    (fileComments f).filter (fun cmt => cmt.body == testDeletedMsg)
        = [{ path := f.filename, body := testDeletedMsg }]
    ∧ ∀ (o r : Str) (n : Nat) (files : List ChangedFile),
        analyze_pr_heuristic o r n (.ok files)
          = .ok { summary := summaryFor o r n (files.flatMap fileComments).length
                  comments := files.flatMap fileComments } := by
  constructor
  · unfold fileComments
    rw [hst, ht]
    rw [show (strL "removed" == strL "modified") = false from by decide]
    rw [show (true && (strL "removed" == strL "removed")) = true from by decide]
    simp only [Bool.false_and, if_false, if_true, List.nil_append, List.filter_append]
    by_cases hb1 : 2000 < (f.patch.getD []).length
    · by_cases hb4 : (containsStr (toLower f.filename) (strL "auth")
          || containsStr (toLower f.filename) (strL "secret")) = true
      · simp [hb1, hb4, List.filter_cons,
          show (largeDiffMsg == testDeletedMsg) = false from by decide,
          show (securityMsg == testDeletedMsg) = false from by decide]
      · simp [hb1, hb4, List.filter_cons,
          show (largeDiffMsg == testDeletedMsg) = false from by decide]
    · by_cases hb4 : (containsStr (toLower f.filename) (strL "auth")
          || containsStr (toLower f.filename) (strL "secret")) = true
      · simp [hb1, hb4, List.filter_cons,
          show (securityMsg == testDeletedMsg) = false from by decide]
      · simp [hb1, hb4, List.filter_cons]
  · intro o r n files
    rfl

/-- C7 witness: the removed file Test_utils.py receives exactly the
test-deletion comment. -/
theorem C7_test_deletion_witness :
    (fileComments
        { filename := strL "Test_utils.py", status := strL "removed"
          additions := 0, deletions := 40, changes := 40, patch := none }).filter
        (fun cmt => cmt.body == testDeletedMsg)
      = [{ path := strL "Test_utils.py", body := testDeletedMsg }]
    ∧ analyze_pr_heuristic (strL "o") (strL "r") 1 (.ok [])
        = .ok { summary := summaryFor (strL "o") (strL "r") 1
                  (([] : List ChangedFile).flatMap fileComments).length
                comments := ([] : List ChangedFile).flatMap fileComments } :=
  ⟨(C7_test_deletion _ rfl (by decide)).1,
   (C7_test_deletion
      { filename := strL "Test_utils.py", status := strL "removed"
        additions := 0, deletions := 40, changes := 40, patch := none }
      rfl (by decide)).2 (strL "o") (strL "r") 1 []⟩

/-- C8: for every changed-file list, the heuristic summary reports a
suggestion count exactly equal to the number of entries of the returned
comments array. -/
theorem C8_count_matches_comments (o r : Str) (n : Nat)
    (files : List ChangedFile) (res : AnalysisResult)
    (h : analyze_pr_heuristic o r n (.ok files) = .ok res) :
    res.summary = summaryFor o r n res.comments.length := by
  unfold analyze_pr_heuristic at h
  have h2 := Except.ok.inj h
  subst h2
  rfl

/-- C8 witness: the count-summary invariant at a concrete file matching
two rules (test deletion and security-sensitive path). -/
theorem C8_count_matches_comments_witness :
    ({ summary := summaryFor (strL "acme") (strL "widgets") 7 2
       comments := [{ path := strL "src/auth/Test_old.py", body := testDeletedMsg },
                    { path := strL "src/auth/Test_old.py", body := securityMsg }] }
      : AnalysisResult).summary
      = summaryFor (strL "acme") (strL "widgets") 7
          ({ summary := summaryFor (strL "acme") (strL "widgets") 7 2
             comments := [{ path := strL "src/auth/Test_old.py", body := testDeletedMsg },
                          { path := strL "src/auth/Test_old.py", body := securityMsg }] }
            : AnalysisResult).comments.length :=
  C8_count_matches_comments (strL "acme") (strL "widgets") 7
    [{ filename := strL "src/auth/Test_old.py", status := strL "removed"
       additions := 0, deletions := 9, changes := 9, patch := none }]
    _ (by rfl)

/-- C9: a changed file without a patch is treated as having an empty
patch, so the large-diff rule never fires for it, and its context section
carries no diff block: it is exactly the section header plus the blank
line. -/
theorem C9_absent_patch (f : ChangedFile) (hp : f.patch = none) :
    (fileComments f).filter (fun cmt => cmt.body == largeDiffMsg) = []
    ∧ fileSection f = sectionHeader f ++ strL "\n" := by
  constructor
  · unfold fileComments
    rw [hp]
    simp only [Option.getD_none, List.length_nil]
    rw [if_neg (show ¬ 2000 < 0 by omega)]
    simp only [List.nil_append, List.filter_append]
    by_cases hb2 : (f.status == strL "modified"
        && containsStr (toLower f.filename) (strL "config")) = true
    · by_cases hb3 : (containsStr (toLower f.filename) (strL "test")
          && f.status == strL "removed") = true
      · by_cases hb4 : (containsStr (toLower f.filename) (strL "auth")
            || containsStr (toLower f.filename) (strL "secret")) = true
        · simp [hb2, hb3, hb4, List.filter_cons,
            show (configMsg == largeDiffMsg) = false from by decide,
            show (testDeletedMsg == largeDiffMsg) = false from by decide,
            show (securityMsg == largeDiffMsg) = false from by decide]
        · simp [hb2, hb3, hb4, List.filter_cons,
            show (configMsg == largeDiffMsg) = false from by decide,
            show (testDeletedMsg == largeDiffMsg) = false from by decide]
      · by_cases hb4 : (containsStr (toLower f.filename) (strL "auth")
            || containsStr (toLower f.filename) (strL "secret")) = true
        · simp [hb2, hb3, hb4, List.filter_cons,
            show (configMsg == largeDiffMsg) = false from by decide,
            show (securityMsg == largeDiffMsg) = false from by decide]
        · simp [hb2, hb3, hb4, List.filter_cons,
            show (configMsg == largeDiffMsg) = false from by decide]
    · by_cases hb3 : (containsStr (toLower f.filename) (strL "test")
          && f.status == strL "removed") = true
      · by_cases hb4 : (containsStr (toLower f.filename) (strL "auth")
            || containsStr (toLower f.filename) (strL "secret")) = true
        · simp [hb2, hb3, hb4, List.filter_cons,
            show (testDeletedMsg == largeDiffMsg) = false from by decide,
            show (securityMsg == largeDiffMsg) = false from by decide]
        · simp [hb2, hb3, hb4, List.filter_cons,
            show (testDeletedMsg == largeDiffMsg) = false from by decide]
      · by_cases hb4 : (containsStr (toLower f.filename) (strL "auth")
            || containsStr (toLower f.filename) (strL "secret")) = true
        · simp [hb2, hb3, hb4, List.filter_cons,
            show (securityMsg == largeDiffMsg) = false from by decide]
        · simp [hb2, hb3, hb4, List.filter_cons]
  · simp [fileSection, hp]

/-- C9 witness: a binary file record with no patch gets no large-diff
comment and a section without a diff block. -/
theorem C9_absent_patch_witness :
    (fileComments
        { filename := strL "assets/logo.png", status := strL "added"
          additions := 0, deletions := 0, changes := 0, patch := none }).filter
        (fun cmt => cmt.body == largeDiffMsg) = []
    ∧ fileSection
        { filename := strL "assets/logo.png", status := strL "added"
          additions := 0, deletions := 0, changes := 0, patch := none }
      = sectionHeader
          { filename := strL "assets/logo.png", status := strL "added"
            additions := 0, deletions := 0, changes := 0, patch := none }
          ++ strL "\n" :=
  C9_absent_patch _ rfl

/-- C2 counterexample: the heuristic variant's analyze_pr handler has no
try/catch, so a rejected file-list read propagates out of the handler
instead of yielding a well-formed degraded result — refuting the claim
as stated over every Analyzer variant. -/
theorem C2_counterexample :
    isOkE (analyze_pr_heuristic (strL "acme") (strL "widgets") 7
        (Except.error (strL "listFiles failed"))) = false
    ∧ analyze_pr_heuristic (strL "acme") (strL "widgets") 7
        (Except.error (strL "listFiles failed"))
      = Except.error (strL "listFiles failed") :=
  ⟨rfl, rfl⟩

/-- C2 amended: in the hardened (AI) variant, any exception during fetch
or generation is caught, and analyze_pr still returns a result whose
summary is the non-empty error description and whose comments array is
empty; in particular a failing file-list read yields such a degraded
result.  (The heuristic variant instead lets the exception propagate.) -/
theorem C2_amended_hardened_degrades (n : Nat) (argKey envKey : Option Str)
    (getPR : Except Str PRInfo) (lf : Except Str (List ChangedFile))
    (gemini : Str → Except Str Str) (extract : Str → List ReviewComment) :
    (∀ e, analyze_pr_try n argKey envKey (promiseAll2 getPR lf) gemini extract
        = .error e →
      (analyze_pr_ai n argKey envKey getPR lf gemini extract).comments = []
        ∧ (analyze_pr_ai n argKey envKey getPR lf gemini extract).summary
            = strL "Error during PR analysis: " ++ e
        ∧ (analyze_pr_ai n argKey envKey getPR lf gemini extract).summary ≠ [])
    ∧ (∀ e, lf = .error e →
      (analyze_pr_ai n argKey envKey getPR lf gemini extract).comments = []
        ∧ (analyze_pr_ai n argKey envKey getPR lf gemini extract).summary ≠ []) := by
  constructor
  · intro e h
    unfold analyze_pr_ai
    rw [h]
    exact ⟨rfl, rfl, by simp [strL]⟩
  · intro e h
    subst h
    have hall : ∃ e2, promiseAll2 getPR (Except.error e : Except Str (List ChangedFile))
        = Except.error e2 := by
      cases getPR with
      | ok x => exact ⟨e, rfl⟩
      | error e2 => exact ⟨e2, rfl⟩
    obtain ⟨e2, h2⟩ := hall
    have h3 : analyze_pr_try n argKey envKey
        (promiseAll2 getPR (Except.error e)) gemini extract = Except.error e2 := by
      rw [h2]; rfl
    unfold analyze_pr_ai
    rw [h3]
    exact ⟨rfl, by simp [strL]⟩

/-- C2 amended witness: a concrete failing file-list read produces the
degraded result in the hardened variant. -/
theorem C2_amended_hardened_degrades_witness :
    (analyze_pr_ai 7 none none (Except.ok samplePR)
        (Except.error (strL "listFiles failed"))
        (fun _ => Except.error (strL "unreached"))
        (fun _ => [])).comments = []
    ∧ (analyze_pr_ai 7 none none (Except.ok samplePR)
        (Except.error (strL "listFiles failed"))
        (fun _ => Except.error (strL "unreached"))
        (fun _ => [])).summary ≠ [] :=
  (C2_amended_hardened_degrades 7 none none (Except.ok samplePR)
      (Except.error (strL "listFiles failed"))
      (fun _ => Except.error (strL "unreached"))
      (fun _ => [])).2
    (strL "listFiles failed") rfl

/-- C4 counterexample: the heuristic variant's analyze_pr issues only the
file-list read — its embedding is a function of that single read's
outcome, with no get-PR read at all — and returns a normal analysis from
it alone, refuting the claim that every analyze_pr invocation performs
two independent hosting-platform reads and fails unless both succeed. -/
theorem C4_counterexample :
    analyze_pr_heuristic (strL "acme") (strL "widgets") 7 (Except.ok [])
      = Except.ok
          { summary := strL "Automated PR analysis found 0 suggestion(s) for acme/widgets#7."
            comments := [] } :=
  rfl

/-- C4 amended: in the AI variant, analyze_pr performs the two
independent reads (get PR by number; list changed files) jointly: when at
least one succeeds the joined outcome — and hence the analysis — is the
same in either join order; a normal (non-degraded) analysis is produced
only if both reads succeed; and if either read fails the call degrades to
the error result.  The heuristic variant issues only the file-list read. -/
theorem C4_amended_ai_two_reads (n : Nat) (argKey envKey : Option Str)
    (getPR : Except Str PRInfo) (lf : Except Str (List ChangedFile))
    (gemini : Str → Except Str Str) (extract : Str → List ReviewComment) :
    ((isOkE getPR || isOkE lf) = true →
      analyze_pr_try n argKey envKey (promiseAll2 getPR lf) gemini extract
        = analyze_pr_try n argKey envKey
            ((promiseAll2 lf getPR).map Prod.swap) gemini extract)
    ∧ (∀ r, analyze_pr_try n argKey envKey (promiseAll2 getPR lf) gemini extract
          = .ok r →
        isOkE getPR = true ∧ isOkE lf = true)
    ∧ ((isOkE getPR = false ∨ isOkE lf = false) →
        ∃ e, analyze_pr_ai n argKey envKey getPR lf gemini extract
            = { summary := strL "Error during PR analysis: " ++ e, comments := [] }
          ∧ promiseAll2 getPR lf = Except.error e) := by
  refine ⟨?_, ?_, ?_⟩
  · intro h
    cases getPR with
    | ok x =>
      cases lf with
      | ok y => rfl
      | error e => rfl
    | error e =>
      cases lf with
      | ok y => rfl
      | error e2 => simp [isOkE] at h
  · intro r h
    cases getPR with
    | ok x =>
      cases lf with
      | ok y => exact ⟨rfl, rfl⟩
      | error e =>
        have heq : analyze_pr_try n argKey envKey
            (promiseAll2 (Except.ok x) (Except.error e)) gemini extract
            = Except.error e := rfl
        rw [heq] at h
        cases h
    | error e =>
      have heq : analyze_pr_try n argKey envKey
          (promiseAll2 (Except.error e) lf) gemini extract = Except.error e := by
        cases lf <;> rfl
      rw [heq] at h
      cases h
  · intro h
    have hall : ∃ e, promiseAll2 getPR lf = Except.error e := by
      rcases h with h | h
      · cases getPR with
        | ok x => simp [isOkE] at h
        | error e => cases lf <;> exact ⟨e, rfl⟩
      · cases lf with
        | ok y => simp [isOkE] at h
        | error e =>
          cases getPR with
          | ok x => exact ⟨e, rfl⟩
          | error e2 => exact ⟨e2, rfl⟩
    obtain ⟨e, he⟩ := hall
    refine ⟨e, ?_, he⟩
    unfold analyze_pr_ai
    rw [he]; rfl

/-- C4 amended witness: concrete instances of the three conjuncts — a
both-successful join is order-independent, a normal analysis implies both
reads succeeded, and a failed get-PR read degrades the call. -/
theorem C4_amended_ai_two_reads_witness :
    (analyze_pr_try 7 (some (strL "k")) none
        (promiseAll2 (Except.ok samplePR) (Except.ok ([] : List ChangedFile)))
        (fun _ => Except.ok (strL "fine")) (fun _ => [])
      = analyze_pr_try 7 (some (strL "k")) none
          ((promiseAll2 (Except.ok ([] : List ChangedFile)) (Except.ok samplePR)).map Prod.swap)
          (fun _ => Except.ok (strL "fine")) (fun _ => []))
    ∧ (isOkE (Except.ok samplePR : Except Str PRInfo) = true
        ∧ isOkE (Except.ok ([] : List ChangedFile) : Except Str (List ChangedFile)) = true)
    ∧ (∃ e, analyze_pr_ai 7 (some (strL "k")) none
            (Except.error (strL "get PR failed")) (Except.ok ([] : List ChangedFile))
            (fun _ => Except.ok (strL "fine")) (fun _ => [])
          = { summary := strL "Error during PR analysis: " ++ e, comments := [] }
        ∧ promiseAll2 (Except.error (strL "get PR failed") : Except Str PRInfo)
            (Except.ok ([] : List ChangedFile)) = Except.error e) :=
  ⟨(C4_amended_ai_two_reads 7 (some (strL "k")) none (Except.ok samplePR)
      (Except.ok []) (fun _ => Except.ok (strL "fine")) (fun _ => [])).1 rfl,
   (C4_amended_ai_two_reads 7 (some (strL "k")) none (Except.ok samplePR)
      (Except.ok []) (fun _ => Except.ok (strL "fine")) (fun _ => [])).2.1
     { summary := strL "fine", comments := [] } rfl,
   (C4_amended_ai_two_reads 7 (some (strL "k")) none
      (Except.error (strL "get PR failed")) (Except.ok [])
      (fun _ => Except.ok (strL "fine")) (fun _ => [])).2.2 (Or.inl rfl)⟩

/-- C6: whenever the configured PR-number string does not convert to a
positive integer (NaN, non-positive, or non-integral), the plain Invoker
exits with code 1 without issuing any tool call. -/
theorem C6_invalid_pr_number (env : Env) (fx : InvokerFx) (s : Str)
    (hs : jsOr env.PR_NUMBER env.PR_NUMBER_INPUT = some s)
    (hbad : jsToNumber s = none
      ∨ ∃ v, jsToNumber s = some v
          ∧ (jsNumNonPos v = true ∨ jsNumIsInt v = false)) :
    (run_action env fx).exitCode = 1 ∧ (run_action env fx).toolCall = none := by
  have hrun : run_action env fx = fatalRun := by
    simp only [run_action, hs, Option.getD_some]
    rcases hbad with hb | ⟨v, hv, hbv⟩
    · rw [hb]
      split
      · rfl
      · split
        · rfl
        · rfl
    · rw [hv]
      have hcond : (jsNumNonPos v || !jsNumIsInt v) = true := by
        rcases hbv with h | h <;> simp [h]
      simp only [hcond, if_true]
      split
      · rfl
      · split
        · rfl
        · rfl
  rw [hrun]
  exact ⟨rfl, rfl⟩

/-- C6 witness: the PR-number strings 12abc, 0 and -3 each make the
Invoker exit 1 before any tool call. -/
theorem C6_invalid_pr_number_witness :
    ((run_action
        { GITHUB_TOKEN := some (strL "tok"), GH_TOKEN := none
          GITHUB_REPOSITORY := some (strL "acme/widgets")
          PR_NUMBER := some (strL "12abc"), PR_NUMBER_INPUT := none
          GEMINI_API_KEY := none }
        { connect := .ok (), toolReply := .ok none
          postComment := .ok (), postReview := .ok () }).exitCode = 1
      ∧ (run_action
        { GITHUB_TOKEN := some (strL "tok"), GH_TOKEN := none
          GITHUB_REPOSITORY := some (strL "acme/widgets")
          PR_NUMBER := some (strL "12abc"), PR_NUMBER_INPUT := none
          GEMINI_API_KEY := none }
        { connect := .ok (), toolReply := .ok none
          postComment := .ok (), postReview := .ok () }).toolCall = none)
    ∧ ((run_action
        { GITHUB_TOKEN := some (strL "tok"), GH_TOKEN := none
          GITHUB_REPOSITORY := some (strL "acme/widgets")
          PR_NUMBER := some (strL "0"), PR_NUMBER_INPUT := none
          GEMINI_API_KEY := none }
        { connect := .ok (), toolReply := .ok none
          postComment := .ok (), postReview := .ok () }).exitCode = 1
      ∧ (run_action
        { GITHUB_TOKEN := some (strL "tok"), GH_TOKEN := none
          GITHUB_REPOSITORY := some (strL "acme/widgets")
          PR_NUMBER := some (strL "0"), PR_NUMBER_INPUT := none
          GEMINI_API_KEY := none }
        { connect := .ok (), toolReply := .ok none
          postComment := .ok (), postReview := .ok () }).toolCall = none)
    ∧ ((run_action
        { GITHUB_TOKEN := some (strL "tok"), GH_TOKEN := none
          GITHUB_REPOSITORY := some (strL "acme/widgets")
          PR_NUMBER := some (strL "-3"), PR_NUMBER_INPUT := none
          GEMINI_API_KEY := none }
        { connect := .ok (), toolReply := .ok none
          postComment := .ok (), postReview := .ok () }).exitCode = 1
      ∧ (run_action
        { GITHUB_TOKEN := some (strL "tok"), GH_TOKEN := none
          GITHUB_REPOSITORY := some (strL "acme/widgets")
          PR_NUMBER := some (strL "-3"), PR_NUMBER_INPUT := none
          GEMINI_API_KEY := none }
        { connect := .ok (), toolReply := .ok none
          postComment := .ok (), postReview := .ok () }).toolCall = none) :=
  ⟨C6_invalid_pr_number _ _ (strL "12abc") rfl (Or.inl rfl),
   C6_invalid_pr_number _ _ (strL "0") rfl
     (Or.inr ⟨⟨false, 0, 0⟩, rfl, Or.inl rfl⟩),
   C6_invalid_pr_number _ _ (strL "-3") rfl
     (Or.inr ⟨⟨true, 3, 0⟩, rfl, Or.inl rfl⟩)⟩

/-- C5 counterexample: in the AI-variant Invoker, a failing
summary-comment post after a successful analyze_pr call is rethrown: the
process exits 1 and never reports completion, refuting the claim as
stated over every Invoker variant. -/
theorem C5_counterexample :
    (run_action_ai
        { GITHUB_TOKEN := some (strL "ghtoken"), GH_TOKEN := none
          GITHUB_REPOSITORY := some (strL "acme/widgets")
          PR_NUMBER := some (strL "7"), PR_NUMBER_INPUT := none
          GEMINI_API_KEY := some (strL "gkey") }
        { connect := .ok ()
          toolReply := .ok (some { summary := strL "analysis text", comments := [] })
          postComment := .error (strL "HTTP 502")
          postReview := .ok () }).exitCode = 1
    ∧ (run_action_ai
        { GITHUB_TOKEN := some (strL "ghtoken"), GH_TOKEN := none
          GITHUB_REPOSITORY := some (strL "acme/widgets")
          PR_NUMBER := some (strL "7"), PR_NUMBER_INPUT := none
          GEMINI_API_KEY := some (strL "gkey") }
        { connect := .ok ()
          toolReply := .ok (some { summary := strL "analysis text", comments := [] })
          postComment := .error (strL "HTTP 502")
          postReview := .ok () }).completed = false :=
  ⟨rfl, rfl⟩

/-- C5 amended: in the plain Invoker (src/action.ts), posting failures
after a successful analyze_pr call are logged but not escalated — the run
still reports completion and exits 0; the AI-variant Invoker instead
rethrows a summary-post failure and exits 1. -/
theorem C5_amended_plain_invoker (env : Env) (fx : InvokerFx)
    (v : JsNum) (sc : AnalysisResult)
    (htok : jsTruthy (jsOr env.GITHUB_TOKEN env.GH_TOKEN) = true)
    (hown : jsTruthy (env.GITHUB_REPOSITORY.bind
      (fun s => (jsSplit '/' s).get? 0)) = true)
    (hrepo : jsTruthy (env.GITHUB_REPOSITORY.bind
      (fun s => (jsSplit '/' s).get? 1)) = true)
    (hpr : jsTruthy (jsOr env.PR_NUMBER env.PR_NUMBER_INPUT) = true)
    (hnum : jsToNumber ((jsOr env.PR_NUMBER env.PR_NUMBER_INPUT).getD []) = some v)
    (hpos : jsNumNonPos v = false) (hint : jsNumIsInt v = true)
    (hconn : fx.connect = .ok ())
    (hreply : fx.toolReply = .ok (some sc)) :
    (run_action env fx).exitCode = 0 ∧ (run_action env fx).completed = true
    ∧ (∀ e, fx.postComment = .error e →
        strL "Failed to post summary comment: " ++ e ∈ (run_action env fx).postLogs)
    ∧ (∀ e, fx.postReview = .error e → 0 < sc.comments.length →
        strL "Failed to post review: " ++ e ∈ (run_action env fx).postLogs) := by
  simp only [run_action, htok, hown, hrepo, hpr, hnum, hpos, hint, hconn, hreply,
    Bool.not_true, Bool.and_self, Bool.or_self, Bool.not_false, if_false, if_true]
  refine ⟨rfl, rfl, fun e he => ?_, fun e he hlen => ?_⟩
  · rw [he]
    simp
  · rw [he]
    cases hpc : fx.postComment <;> simp [hlen]

/-- C5 amended witness: a concrete run where both posts fail still exits
0, reports completion, and logs both failures. -/
theorem C5_amended_plain_invoker_witness :
    (run_action
        { GITHUB_TOKEN := some (strL "tok"), GH_TOKEN := none
          GITHUB_REPOSITORY := some (strL "acme/widgets")
          PR_NUMBER := some (strL "7"), PR_NUMBER_INPUT := none
          GEMINI_API_KEY := none }
        { connect := .ok ()
          toolReply := .ok (some { summary := strL "sum", comments := [{ path := strL "a.ts", body := strL "b" }] })
          postComment := .error (strL "boom1")
          postReview := .error (strL "boom2") }).exitCode = 0
    ∧ (run_action
        { GITHUB_TOKEN := some (strL "tok"), GH_TOKEN := none
          GITHUB_REPOSITORY := some (strL "acme/widgets")
          PR_NUMBER := some (strL "7"), PR_NUMBER_INPUT := none
          GEMINI_API_KEY := none }
        { connect := .ok ()
          toolReply := .ok (some { summary := strL "sum", comments := [{ path := strL "a.ts", body := strL "b" }] })
          postComment := .error (strL "boom1")
          postReview := .error (strL "boom2") }).completed = true
    ∧ strL "Failed to post summary comment: " ++ strL "boom1"
        ∈ (run_action
        { GITHUB_TOKEN := some (strL "tok"), GH_TOKEN := none
          GITHUB_REPOSITORY := some (strL "acme/widgets")
          PR_NUMBER := some (strL "7"), PR_NUMBER_INPUT := none
          GEMINI_API_KEY := none }
        { connect := .ok ()
          toolReply := .ok (some { summary := strL "sum", comments := [{ path := strL "a.ts", body := strL "b" }] })
          postComment := .error (strL "boom1")
          postReview := .error (strL "boom2") }).postLogs
    ∧ strL "Failed to post review: " ++ strL "boom2"
        ∈ (run_action
        { GITHUB_TOKEN := some (strL "tok"), GH_TOKEN := none
          GITHUB_REPOSITORY := some (strL "acme/widgets")
          PR_NUMBER := some (strL "7"), PR_NUMBER_INPUT := none
          GEMINI_API_KEY := none }
        { connect := .ok ()
          toolReply := .ok (some { summary := strL "sum", comments := [{ path := strL "a.ts", body := strL "b" }] })
          postComment := .error (strL "boom1")
          postReview := .error (strL "boom2") }).postLogs := by
  have h := C5_amended_plain_invoker
    { GITHUB_TOKEN := some (strL "tok"), GH_TOKEN := none
      GITHUB_REPOSITORY := some (strL "acme/widgets")
      PR_NUMBER := some (strL "7"), PR_NUMBER_INPUT := none
      GEMINI_API_KEY := none }
    { connect := .ok ()
      toolReply := .ok (some { summary := strL "sum", comments := [{ path := strL "a.ts", body := strL "b" }] })
      postComment := .error (strL "boom1")
      postReview := .error (strL "boom2") }
    ⟨false, 7, 0⟩
    { summary := strL "sum", comments := [{ path := strL "a.ts", body := strL "b" }] }
    rfl rfl rfl rfl rfl rfl rfl rfl rfl
  exact ⟨h.1, h.2.1, h.2.2.1 _ rfl, h.2.2.2 _ rfl (by decide)⟩

/-- Splitting at the separator: a separator-free first chunk becomes the
head segment. -/
theorem jsSplit_append_sep (o : Str) (ho : '/' ∉ o) (rest : Str) :
    jsSplit '/' (o ++ '/' :: rest) = o :: jsSplit '/' rest := by
  induction o with
  | nil => simp [jsSplit]
  | cons c cs ih =>
    have hc : ¬ c = '/' := fun h => ho (h ▸ List.mem_cons_self c cs)
    have ih2 := ih (fun h => ho (List.mem_cons_of_mem c h))
    simp only [List.cons_append, jsSplit, if_neg hc, List.append_eq, ih2]

/-- C10: the Invoker takes the owner as the segment before the first
slash of GITHUB_REPOSITORY and the repo as the segment between the first
and second slash, ignoring any further slash-separated segments in the
issued tool call; and when either derived segment is empty or missing it
treats the coordinates as missing and exits 1 without any tool call. -/
theorem C10_repo_coordinates :
    (∀ (env : Env) (fx : InvokerFx) (o r rest : Str) (v : JsNum),
      env.GITHUB_REPOSITORY = some (o ++ '/' :: (r ++ '/' :: rest)) →
      '/' ∉ o → '/' ∉ r → o ≠ [] → r ≠ [] →
      jsTruthy (jsOr env.GITHUB_TOKEN env.GH_TOKEN) = true →
      jsTruthy (jsOr env.PR_NUMBER env.PR_NUMBER_INPUT) = true →
      jsToNumber ((jsOr env.PR_NUMBER env.PR_NUMBER_INPUT).getD []) = some v →
      jsNumNonPos v = false → jsNumIsInt v = true →
      fx.connect = .ok () →
      (run_action env fx).toolCall
        = some { owner := o, repo := r, prNumber := jsNumToNat v,
                 githubToken := (jsOr env.GITHUB_TOKEN env.GH_TOKEN).getD [] })
    ∧ (∀ (env : Env) (fx : InvokerFx) (s : Str),
      env.GITHUB_REPOSITORY = some s →
      ((jsSplit '/' s).get? 0 = some [] ∨ (jsSplit '/' s).get? 1 = none
        ∨ (jsSplit '/' s).get? 1 = some []) →
      (run_action env fx).exitCode = 1 ∧ (run_action env fx).toolCall = none) := by
  constructor
  · intro env fx o r rest v henv ho hr hone hrne htok hpr hnum hpos hint hconn
    have hsplit : jsSplit '/' (o ++ '/' :: (r ++ '/' :: rest))
        = o :: r :: jsSplit '/' rest := by
      rw [jsSplit_append_sep o ho, jsSplit_append_sep r hr]
    have hotr : jsTruthy (some o) = true := by
      simp [jsTruthy, List.isEmpty_iff, hone]
    have hrtr : jsTruthy (some r) = true := by
      simp [jsTruthy, List.isEmpty_iff, hrne]
    have hown2 : (env.GITHUB_REPOSITORY.bind (fun s => (jsSplit '/' s).get? 0)) = some o := by
      rw [henv]
      simp [hsplit]
    have hrepo2 : (env.GITHUB_REPOSITORY.bind (fun s => (jsSplit '/' s).get? 1)) = some r := by
      rw [henv]
      simp [hsplit]
    simp only [run_action, hown2, hrepo2, hotr, hrtr, htok, hpr, hnum, hpos, hint, hconn,
      Option.getD_some, Bool.not_true, Bool.and_self, Bool.and_true, Bool.true_and,
      Bool.or_self, Bool.not_false, Bool.or_false, Bool.false_or,
      Bool.false_eq_true, if_false, if_true]
    cases hrep : fx.toolReply with
    | error e => rfl
    | ok osc => cases osc with
      | none => rfl
      | some sc => rfl
  · intro env fx s henv hbad
    have hrun : run_action env fx = fatalRun := by
      simp only [run_action, henv, Option.some_bind]
      split
      · rfl
      · have hfalse : (jsTruthy ((jsSplit '/' s).get? 0)
            && jsTruthy ((jsSplit '/' s).get? 1)
            && jsTruthy (jsOr env.PR_NUMBER env.PR_NUMBER_INPUT)) = false := by
          rcases hbad with h | h | h <;> rw [h] <;> simp [jsTruthy]
        rw [hfalse]
        rfl
    rw [hrun]
    exact ⟨rfl, rfl⟩

/-- C10 witness: for GITHUB_REPOSITORY acme/widgets/extra the tool call
uses owner acme and repo widgets, ignoring the extra segment; and the
value acme/ makes the Invoker exit 1 with no tool call. -/
theorem C10_repo_coordinates_witness :
    (run_action
        { GITHUB_TOKEN := some (strL "tok"), GH_TOKEN := none,
          GITHUB_REPOSITORY := some (strL "acme/widgets/extra"),
          PR_NUMBER := some (strL "7"), PR_NUMBER_INPUT := none,
          GEMINI_API_KEY := none }
        { connect := .ok (), toolReply := .ok none,
          postComment := .ok (), postReview := .ok () }).toolCall
      = some { owner := strL "acme", repo := strL "widgets",
               prNumber := jsNumToNat ⟨false, 7, 0⟩,
               githubToken := (jsOr (some (strL "tok")) none).getD [] }
    ∧ ((run_action
        { GITHUB_TOKEN := some (strL "tok"), GH_TOKEN := none,
          GITHUB_REPOSITORY := some (strL "acme/"),
          PR_NUMBER := some (strL "7"), PR_NUMBER_INPUT := none,
          GEMINI_API_KEY := none }
        { connect := .ok (), toolReply := .ok none,
          postComment := .ok (), postReview := .ok () }).exitCode = 1
      ∧ (run_action
        { GITHUB_TOKEN := some (strL "tok"), GH_TOKEN := none,
          GITHUB_REPOSITORY := some (strL "acme/"),
          PR_NUMBER := some (strL "7"), PR_NUMBER_INPUT := none,
          GEMINI_API_KEY := none }
        { connect := .ok (), toolReply := .ok none,
          postComment := .ok (), postReview := .ok () }).toolCall = none) :=
  ⟨C10_repo_coordinates.1
      { GITHUB_TOKEN := some (strL "tok"), GH_TOKEN := none,
        GITHUB_REPOSITORY := some (strL "acme/widgets/extra"),
        PR_NUMBER := some (strL "7"), PR_NUMBER_INPUT := none,
        GEMINI_API_KEY := none }
      { connect := .ok (), toolReply := .ok none,
        postComment := .ok (), postReview := .ok () }
      (strL "acme") (strL "widgets") (strL "extra") ⟨false, 7, 0⟩
      rfl (by decide) (by decide) (by decide) (by decide)
      rfl rfl rfl rfl rfl rfl,
   C10_repo_coordinates.2
      { GITHUB_TOKEN := some (strL "tok"), GH_TOKEN := none,
        GITHUB_REPOSITORY := some (strL "acme/"),
        PR_NUMBER := some (strL "7"), PR_NUMBER_INPUT := none,
        GEMINI_API_KEY := none }
      { connect := .ok (), toolReply := .ok none,
        postComment := .ok (), postReview := .ok () }
      (strL "acme/") rfl (Or.inr (Or.inr (by decide)))⟩

end TraeCheck
